import Mathlib

/-!
Shallow embedding of the layer-composition and shape-inference protocol of
notebooks/bonus-dl-framework.ipynb: the stax-style Dense layer, elementwise
activation layers, and the serial combinator, together with the notebook
helpers dense, logistic and nn_model.

Modelling conventions:
  - a shape is the tuple of integers the notebook passes around, with -1 used
    as the wildcard ("sample") dimension marker;
  - fallible Python code is embedded with Except: the external array samplers
    (glorot_normal(), normal()) reject a request containing a wildcard or
    otherwise negative dimension, an out-of-range tuple index is an index
    error, and a failed tuple unpacking is a value error;
  - randomness seeds are an abstract type S together with a splitting
    function split : S -> S x S, mirroring random.split which returns the
    pair of child keys;
  - numeric arrays of rank r+1 are embedded as functions iota -> Fin n -> A:
    all leading (batch) axes are collapsed into one abstract index type iota
    and the trailing axis, the one Dense contracts over, is explicit.
-/

deriving instance DecidableEq for Except

namespace DLWorkshop

/-- A tensor shape as the notebook passes it around: a tuple of integers,
where -1 marks the wildcard (undefined, sample) dimension. -/
abbrev Shape := List Int

/-- Error vocabulary. shapeError is the failure produced when an array with a
non-concrete (wildcard or negative) dimension is requested; indexError models
a Python IndexError (trailing-dimension access on an empty tuple); valueError
models a Python ValueError (tuple unpacking of the wrong arity);
compositionError carries the offending layer position and the underlying
error, as the design document describes for the serial combinator. -/
inductive FrameworkError : Type where
  | shapeError : FrameworkError
  | indexError : FrameworkError
  | valueError : FrameworkError
  | compositionError : Nat → FrameworkError → FrameworkError
deriving DecidableEq

/-- Behaviour of the external array samplers at the shape level: a request
succeeds and yields an array of the requested shape exactly when every
requested dimension is concrete (non-negative); a wildcard dimension makes
the sampler fail with the shape error. -/
def sampleArrayShape (sh : Shape) : Except FrameworkError Shape :=
  if sh.all (fun d => decide (0 ≤ d)) then Except.ok sh
  else Except.error FrameworkError.shapeError

/-- Dense.init_fun from the notebook, parametric in the sampler pair so the
same code can be read at the shape level or instrumented. Mirrors the source:
first the output shape is the input shape with its trailing entry replaced by
outDim, then the seed is split into k1 and k2, then the weight array is drawn
from k1 at shape (trailing input dimension, outDim) and the bias from k2 at
shape (outDim,). Accessing the trailing entry of an empty shape is a Python
IndexError; sampler failures propagate. -/
def DenseInit {S A : Type} (split : S → S × S) (outDim : Int)
    (wInit bInit : S → Shape → Except FrameworkError A)
    (rng : S) (inputShape : Shape) : Except FrameworkError (Shape × (A × A)) :=
  let outputShape := inputShape.dropLast ++ [outDim]
  let k1 := (split rng).1
  let k2 := (split rng).2
  match inputShape.getLast? with
  | none => Except.error FrameworkError.indexError
  | some d =>
    match wInit k1 [d, outDim] with
    | Except.error e => Except.error e
    | Except.ok w =>
      match bInit k2 [outDim] with
      | Except.error e => Except.error e
      | Except.ok b => Except.ok (outputShape, (w, b))

/-- Shape-level reading of Dense.init_fun: the samplers return the shapes of
the arrays they would create, and the parameter blob is the list of those
shapes (weight shape, then bias shape). -/
def DenseInitS {S : Type} (split : S → S × S) (outDim : Int)
    (rng : S) (inputShape : Shape) : Except FrameworkError (Shape × List Shape) :=
  match DenseInit split outDim (fun _ sh => sampleArrayShape sh)
      (fun _ sh => sampleArrayShape sh) rng inputShape with
  | Except.error e => Except.error e
  | Except.ok (osh, wb) => Except.ok (osh, [wb.1, wb.2])

/-- Modelled from the spec: the notebook imports the activation layers (Tanh,
Elu) from stax without quoting their init code; section 4.1 of the design
document states that an activation layer init returns the input shape
unchanged together with an empty parameter blob. -/
def ActivationInit {S P : Type} (emptyBlob : P) (_rng : S) (inputShape : Shape) :
    Except FrameworkError (Shape × P) :=
  Except.ok (inputShape, emptyBlob)

/-- Shape-level activation initializer: the empty parameter blob is the empty
list of array shapes. -/
def ActivationInitS {S : Type} (rng : S) (inputShape : Shape) :
    Except FrameworkError (Shape × List Shape) :=
  ActivationInit [] rng inputShape

/-- The loop body of serial.init_fun from the notebook: the running seed is
split, the first component becomes the new running seed, the second is handed
to the current layer init; the layer output shape becomes the next input
shape and the layer params are appended in order. An error raised by a
constituent init propagates out of the loop unchanged (the source installs no
handler). -/
def serialInit {S P : Type} (split : S → S × S)
    (initFuns : List (S → Shape → Except FrameworkError (Shape × P)))
    (rng : S) (inputShape : Shape) :
    Except FrameworkError (Shape × List P) :=
  match initFuns with
  | [] => Except.ok (inputShape, [])
  | f :: rest =>
    match f (split rng).2 inputShape with
    | Except.error e => Except.error e
    | Except.ok (sh, p) =>
      match serialInit split rest (split rng).1 sh with
      | Except.error e => Except.error e
      | Except.ok (finalSh, ps) => Except.ok (finalSh, p :: ps)

/-- The serial combinator from the notebook, including its construction step:
unpacking zip of the layer pairs into the init functions and the apply
functions. For an empty layer sequence that unpacking receives zero groups
where two are expected, which is a Python ValueError, so construction fails
before any init or apply function exists. For a nonempty sequence it returns
the composite init function together with the list of apply functions the
composite apply closes over. -/
def serial {S P A : Type} (split : S → S × S)
    (layers : List ((S → Shape → Except FrameworkError (Shape × P)) × A)) :
    Except FrameworkError
      ((S → Shape → Except FrameworkError (Shape × List P)) × List A) :=
  match layers with
  | [] => Except.error FrameworkError.valueError
  | _ :: _ =>
      Except.ok (serialInit split (layers.map Prod.fst), layers.map Prod.snd)

/-- The loop of serial.apply_fun from the notebook, on the deterministic
path: iterate over the zip of the apply functions with their index-aligned
parameter blobs, replacing the current data with each layer output in
declared order; like the Python zip, iteration stops when either list is
exhausted. An error raised by a constituent apply propagates out of the loop
unchanged (the source installs no handler). -/
def serialApply {Q V : Type}
    (applyFuns : List (Q → V → Except FrameworkError V))
    (params : List Q) (inputs : V) : Except FrameworkError V :=
  match applyFuns, params with
  | f :: fs, q :: qs =>
    match f q inputs with
    | Except.error e => Except.error e
    | Except.ok v => serialApply fs qs v
  | _, _ => Except.ok inputs

/-- Shape-level behaviour of Dense.apply_fun: the external numpy dot product
contracts the trailing axis of the inputs against the first axis of the
rank-2 weight array and fails when those dimensions disagree; adding the
bias then broadcasts a vector whose length is the trailing result dimension
(or one). The parameter blob is the pair of array shapes the shape-level
init produced. -/
def DenseApplyS (params : List Shape) (inputShape : Shape) :
    Except FrameworkError Shape :=
  match params, inputShape.getLast? with
  | [[dn, dm], [db]], some d =>
    if d = dn ∧ (db = dm ∨ db = 1) then Except.ok (inputShape.dropLast ++ [dm])
    else Except.error FrameworkError.shapeError
  | _, _ => Except.error FrameworkError.shapeError

/-- A concrete splitter on natural-number seeds, used to instantiate
theorems: the children of s are 2s+1 and 2s+2 (the binary-tree labelling, so
distinct seeds have disjoint descendant sets). -/
def natSplit (s : Nat) : Nat × Nat := (2 * s + 1, 2 * s + 2)

/-- Instrumented sampler: succeeds exactly when the shape-level sampler does,
and additionally records the seed it was handed, so theorems can speak about
which child seed each array was drawn from. -/
def trackSample {S : Type} (k : S) (sh : Shape) :
    Except FrameworkError (S × Shape) :=
  match sampleArrayShape sh with
  | Except.error e => Except.error e
  | Except.ok s => Except.ok (k, s)

/-- Instrumented layer initializer: it accepts any input shape, leaves the
shape unchanged, and records as its parameter blob the seed the serial loop
handed to it. -/
def probeInit {S : Type} (rng : S) (inputShape : Shape) :
    Except FrameworkError (Shape × S) :=
  Except.ok (inputShape, rng)

/-- The running seed of the serial init loop after i iterations: the loop
carries the first component of each split. -/
def contSeed {S : Type} (split : S → S × S) (rng : S) : Nat → S
  | 0 => rng
  | i + 1 => (split (contSeed split rng i)).1

/-- The child seed the serial init loop hands to layer i: the second
component of the split of the running seed at iteration i. -/
def childSeed {S : Type} (split : S → S × S) (rng : S) (i : Nat) : S :=
  (split (contSeed split rng i)).2

/-- A splitter on integer seeds whose continuation component has a cycle: the
continuation of 1 is -1 and of -1 is 1 (elsewhere it doubles), while the
child component is 8s+3. -/
def exCont (s : Int) : Int :=
  if s = 1 then -1 else if s = -1 then 1 else 2 * s

/-- The full cyclic-continuation splitter; it is injective (the child
components 8s+3 alone already separate any two seeds). -/
def exSplit (s : Int) : Int × Int := (exCont s, 8 * s + 3)

/-- State-passing embedding of a layer initializer that may read and advance
process-wide state (such as the global numpy random generator that the
notebook helper dense_params consults). -/
def InitFunW (G S P : Type) : Type :=
  G → S → Shape → G × Except FrameworkError (Shape × P)

/-- A stax-style initializer contains no access to process-wide state, so its
state-passing embedding returns the state unchanged and computes its result
from the seed and shape alone. -/
def liftInit {G S P : Type}
    (f : S → Shape → Except FrameworkError (Shape × P)) : InitFunW G S P :=
  fun g rng sh => (g, f rng sh)

/-- serial.init_fun with the process-wide state threaded explicitly through
each constituent initializer call, in the order the Python interpreter would
perform them. -/
def serialInitW {G S P : Type} (split : S → S × S)
    (initFuns : List (InitFunW G S P)) (g : G) (rng : S) (inputShape : Shape) :
    G × Except FrameworkError (Shape × List P) :=
  match initFuns with
  | [] => (g, Except.ok (inputShape, []))
  | f :: rest =>
    match f g (split rng).2 inputShape with
    | (g1, Except.error e) => (g1, Except.error e)
    | (g1, Except.ok (sh, p)) =>
      match serialInitW split rest g1 (split rng).1 sh with
      | (g2, Except.error e) => (g2, Except.error e)
      | (g2, Except.ok (finalSh, ps)) => (g2, Except.ok (finalSh, p :: ps))

/-- The numpy dot product of an input of arbitrary rank at least 1 with a
rank-2 array: all leading (batch, sample) axes of the input are collapsed
into one abstract index type, and contraction is between the trailing axis of
the input and the first axis of the rank-2 array. -/
def npDot {A : Type} [CommRing A] {I : Type} {n m : Nat}
    (x : I → Fin n → A) (w : Fin n → Fin m → A) : I → Fin m → A :=
  fun i j => Finset.sum Finset.univ (fun k => x i k * w k j)

/-- Dense.apply_fun from the notebook: unpack the parameter tuple into W and
b and return the dot product of the inputs with W plus b, with b broadcast
over every leading axis. -/
def denseApply {A : Type} [CommRing A] {I : Type} {n m : Nat}
    (params : (Fin n → Fin m → A) × (Fin m → A)) (inputs : I → Fin n → A) :
    I → Fin m → A :=
  fun i j => npDot inputs params.1 i j + params.2 j

/-- One layer as it exists at apply time: a dense layer together with its
parameter tuple (W, b), or an elementwise activation, which owns no
parameters. The two indices are the trailing dimensions of its input and of
its output. -/
inductive LayerA (A : Type) : Nat → Nat → Type where
  | dense {n m : Nat} (w : Fin n → Fin m → A) (b : Fin m → A) : LayerA A n m
  | elementwise {n : Nat} (f : A → A) : LayerA A n n

/-- A serial chain of layers with their index-aligned parameter blobs. -/
inductive Net (A : Type) : Nat → Nat → Type where
  | nil {n : Nat} : Net A n n
  | cons {n m k : Nat} (l : LayerA A n m) (rest : Net A m k) : Net A n k

/-- Apply one layer: Dense.apply_fun for a dense layer, and for an
elementwise activation the scalar function applied independently to every
element. (Modelled from the spec for activations: the notebook imports their
apply code from stax; section 4.1 states they apply a fixed scalar
nonlinearity elementwise.) -/
def LayerA.applyL {A : Type} [CommRing A] {I : Type} {n m : Nat} :
    LayerA A n m → (I → Fin n → A) → (I → Fin m → A)
  | LayerA.dense w b, x => denseApply (w, b) x
  | LayerA.elementwise f, x => fun i j => f (x i j)

/-- The loop of serial.apply_fun: thread the current data through each layer
of the chain in declared order, each layer paired with its own parameters. -/
def Net.applyN {A : Type} [CommRing A] {I : Type} :
    {n m : Nat} → Net A n m → (I → Fin n → A) → (I → Fin m → A)
  | _, _, Net.nil, x => x
  | _, _, Net.cons l rest, x => rest.applyN (l.applyL x)

/-- logistic from the notebook: one over one plus the exponential of the
negated argument, with the scalar exponential it calls supplied as an
argument. -/
def logistic {A : Type} [Field A] (exp : A → A) (x : A) : A :=
  1 / (1 + exp (-x))

/-- The parameter dictionary one dense helper call expects: entries w and b. -/
structure DenseParams (A : Type) (n m : Nat) where
  w : Fin n → Fin m → A
  b : Fin m → A

/-- dense from the notebook: the dot product of x with the w entry of the
parameter dictionary, plus its b entry. -/
def dense {A : Type} [CommRing A] {I : Type} {n m : Nat}
    (params : DenseParams A n m) (x : I → Fin n → A) : I → Fin m → A :=
  fun i j => npDot x params.w i j + params.b j

/-- nn_model from the notebook, refactored through the dense helper: the
first activation is tanh of dense applied with the dense1 entry, the second
is logistic of dense applied with the dense2 entry. -/
def nn_model {A : Type} [Field A] (tanh exp : A → A) {I : Type} {n m k : Nat}
    (p : DenseParams A n m × DenseParams A m k) (x : I → Fin n → A) :
    I → Fin k → A :=
  fun i j => logistic exp (dense p.2 (fun i2 j2 => tanh (dense p.1 x i2 j2)) i j)

/-- The original inlined nn_model the notebook quotes: tanh of the dot
product of x with w1 plus b1, then logistic of the dot product of that with
w2 plus b2. -/
def nn_model_orig {A : Type} [Field A] (tanh exp : A → A) {I : Type}
    {n m k : Nat} (w1 : Fin n → Fin m → A) (b1 : Fin m → A)
    (w2 : Fin m → Fin k → A) (b2 : Fin k → A) (x : I → Fin n → A) :
    I → Fin k → A :=
  fun i j =>
    logistic exp (npDot (fun i2 j2 => tanh (npDot x w1 i2 j2 + b1 j2)) w2 i j + b2 j)

/-- Shape propagation through the four-layer model: for any splitter, seed
and batch entry, serial init over Dense 20, activation, Dense 1, activation
starting from (batch, 41) yields final shape (batch, 1) and one parameter
blob per layer, in declared order. -/
theorem serialShapeAux {S : Type} (split : S → S × S) (rng : S) (batch : Int) :
    serialInit split
        [DenseInitS split 20, ActivationInitS, DenseInitS split 1, ActivationInitS]
        rng [batch, 41]
      = Except.ok ([batch, 1], [[[41, 20], [20]], [], [[20, 1], [1]], []]) := rfl

/-- The state-passing embedding of serial init over stateless layers returns
the process-wide state untouched and computes the pure result. -/
theorem serialInitW_lift {G S P : Type} (split : S → S × S)
    (ls : List (S → Shape → Except FrameworkError (Shape × P))) :
    ∀ (g : G) (rng : S) (sh : Shape),
      serialInitW split (ls.map liftInit) g rng sh
        = (g, serialInit split ls rng sh) := by
  induction ls with
  | nil => intro g rng sh; rfl
  | cons f rest ih =>
    intro g rng sh
    show (match liftInit f g (split rng).2 sh with
      | (g1, Except.error e) => (g1, Except.error e)
      | (g1, Except.ok (sh1, p)) =>
        match serialInitW split (rest.map liftInit) g1 (split rng).1 sh1 with
        | (g2, Except.error e) => (g2, Except.error e)
        | (g2, Except.ok (finalSh, ps)) => (g2, Except.ok (finalSh, p :: ps)))
      = (g, serialInit split (f :: rest) rng sh)
    cases hf : f (split rng).2 sh with
    | error e => simp [liftInit, serialInit, hf]
    | ok v =>
      cases v with
      | mk sh1 p =>
        simp only [liftInit, ih, serialInit, hf]
        cases hr : serialInit split rest (split rng).1 sh1 <;> rfl

/-- Iterating the continuation from the first child of a seed is the same as
iterating it one step further from the seed itself. -/
theorem contSeed_shift {S : Type} (split : S → S × S) (rng : S) (i : Nat) :
    contSeed split (split rng).1 i = contSeed split rng (i + 1) := by
  induction i with
  | zero => rfl
  | succ n ih => show (split (contSeed split (split rng).1 n)).1 = _; rw [ih]; rfl

/-- Running serial init over n instrumented layers records exactly the child
seeds of the running-seed chain, one split per layer, and leaves the shape
unchanged. -/
theorem serialInit_probe {S : Type} (split : S → S × S) (n : Nat) :
    ∀ (rng : S) (sh : Shape),
      serialInit split (List.replicate n probeInit) rng sh
        = Except.ok (sh, (List.range n).map (childSeed split rng)) := by
  induction n with
  | zero => intro rng sh; rfl
  | succ m ih =>
    intro rng sh
    rw [List.replicate_succ, List.range_succ_eq_map]
    show (match serialInit split (List.replicate m probeInit) (split rng).1 sh with
      | Except.error e => Except.error e
      | Except.ok (finalSh, ps) => Except.ok (finalSh, (split rng).2 :: ps))
      = Except.ok (sh, (0 :: (List.range m).map Nat.succ).map (childSeed split rng))
    rw [ih]
    simp only [List.map_cons, List.map_map, Except.ok.injEq, Prod.mk.injEq, true_and]
    congr 1
    apply List.map_congr_left
    intro i _
    show childSeed split (split rng).1 i = childSeed split rng (Nat.succ i)
    unfold childSeed
    rw [contSeed_shift]

/-- The logistic of any real number lies strictly between 0 and 1. -/
theorem logistic_mem_Ioo (x : ℝ) :
    logistic Real.exp x ∈ Set.Ioo (0 : ℝ) 1 := by
  unfold logistic
  have h : (0 : ℝ) < Real.exp (-x) := Real.exp_pos _
  constructor
  · positivity
  · rw [div_lt_one (by linarith)]
    linarith

/-- C1 counterexample: with a single Dense layer of width 20 and an input
shape whose trailing dimension is the wildcard, the serial combinator
surfaces the bare shape error of the constituent layer, not a composition
error wrapping the offending layer position. -/
theorem serial_wraps_nothing :
    serialInit natSplit [DenseInitS natSplit 20] 0 [-1]
      = Except.error FrameworkError.shapeError := by decide

/-- When a constituent layer fails during the serial init loop, the error
that escapes the loop is exactly an error some constituent init produced. -/
theorem serialInit_error_from_layer {S P : Type} (split : S → S × S)
    (initFuns : List (S → Shape → Except FrameworkError (Shape × P)))
    (rng : S) (sh : Shape) (e : FrameworkError)
    (h : serialInit split initFuns rng sh = Except.error e) :
    ∃ f ∈ initFuns, ∃ r s, f r s = Except.error e := by
  induction initFuns generalizing rng sh with
  | nil => exact absurd h (by simp [serialInit])
  | cons f rest ih =>
    rw [serialInit] at h
    cases hf : f (split rng).2 sh with
    | error e1 =>
      rw [hf] at h
      dsimp only at h
      refine ⟨f, List.mem_cons_self f rest, (split rng).2, sh, ?_⟩
      rw [hf]
      exact congrArg Except.error (Except.error.inj h)
    | ok v =>
      rw [hf] at h
      obtain ⟨sh1, p⟩ := v
      dsimp only at h
      cases hr : serialInit split rest (split rng).1 sh1 with
      | error e2 =>
        rw [hr] at h
        dsimp only at h
        obtain ⟨g, hg, r, s, hgs⟩ := ih (split rng).1 sh1
          (hr.trans (congrArg Except.error (Except.error.inj h)))
        exact ⟨g, List.mem_cons_of_mem f hg, r, s, hgs⟩
      | ok w =>
        rw [hr] at h
        dsimp only at h
        exact Except.noConfusion h

/-- When a constituent layer fails during the serial apply loop, the error
that escapes the loop is exactly an error some constituent apply produced. -/
theorem serialApply_error_from_layer {Q V : Type}
    (applyFuns : List (Q → V → Except FrameworkError V)) :
    ∀ (params : List Q) (inputs : V) (e : FrameworkError),
      serialApply applyFuns params inputs = Except.error e →
      ∃ g ∈ applyFuns, ∃ q v, g q v = Except.error e := by
  induction applyFuns with
  | nil =>
    intro params inputs e h
    exact absurd h (by cases params <;> simp [serialApply])
  | cons f fs ih =>
    intro params inputs e h
    cases params with
    | nil => exact absurd h (by simp [serialApply])
    | cons q qs =>
      rw [serialApply] at h
      cases hf : f q inputs with
      | error e1 =>
        rw [hf] at h
        dsimp only at h
        refine ⟨f, List.mem_cons_self f fs, q, inputs, ?_⟩
        rw [hf]
        exact congrArg Except.error (Except.error.inj h)
      | ok v =>
        rw [hf] at h
        dsimp only at h
        obtain ⟨g, hg, q1, v1, hgv⟩ := ih qs v e h
        exact ⟨g, List.mem_cons_of_mem f hg, q1, v1, hgv⟩

/-- C1 (amended): when a constituent layer fails during the serial
combinator's init, or during its apply, the error that escapes the
combinator is exactly an error some constituent produced, propagated
unchanged on either path — there is no wrapping into a composition error
carrying the layer position, and no retry. -/
theorem serial_error_unwrapped {S P Q V : Type} (split : S → S × S)
    (initFuns : List (S → Shape → Except FrameworkError (Shape × P)))
    (rng : S) (sh : Shape) (eInit : FrameworkError)
    (applyFuns : List (Q → V → Except FrameworkError V))
    (params : List Q) (inputs : V) (eApply : FrameworkError)
    (hInit : serialInit split initFuns rng sh = Except.error eInit)
    (hApply : serialApply applyFuns params inputs = Except.error eApply) :
    (∃ f ∈ initFuns, ∃ r s, f r s = Except.error eInit) ∧
    (∃ g ∈ applyFuns, ∃ q v, g q v = Except.error eApply) :=
  ⟨serialInit_error_from_layer split initFuns rng sh eInit hInit,
   serialApply_error_from_layer applyFuns params inputs eApply hApply⟩

/-- C1 witness: a concrete composite failing at init (Dense 20 on a wildcard
trailing dimension) and a concrete composite failing at apply (Dense
parameters W of shape (41, 20) and b of shape (20,) against inputs of shape
(1000, 40)); on both paths the propagation theorem applies and the escaping
error is the bare shape error of the constituent layer. -/
theorem serial_error_unwrapped_witness :
    (serialInit natSplit [DenseInitS natSplit 20] 0 [-1]
        = Except.error FrameworkError.shapeError) ∧
    (serialApply [DenseApplyS] [[[41, 20], [20]]] ([1000, 40] : Shape)
        = Except.error FrameworkError.shapeError) ∧
    (∃ f ∈ [DenseInitS natSplit 20], ∃ r s,
        f r s = Except.error FrameworkError.shapeError) ∧
    (∃ g ∈ [DenseApplyS], ∃ q v, g q v = Except.error FrameworkError.shapeError) :=
  ⟨by decide, by decide,
   serial_error_unwrapped natSplit [DenseInitS natSplit 20] 0 [-1]
     FrameworkError.shapeError [DenseApplyS] [[[41, 20], [20]]] [1000, 40]
     FrameworkError.shapeError (by decide) (by decide)⟩

/-- C2: Dense init on any input shape whose trailing dimension is the
wildcard marker fails with the shape error, for every seed and every
requested output width: no parameters are produced and no default is
substituted. -/
theorem dense_init_wildcard {S : Type} (split : S → S × S) (outDim : Int)
    (rng : S) (sh : Shape) (h : sh.getLast? = some (-1)) :
    DenseInitS split outDim rng sh = Except.error FrameworkError.shapeError := by
  unfold DenseInitS DenseInit
  rw [h]
  simp [sampleArrayShape]

/-- C2 witness: Dense(20) initialized at the concrete shape (3, -1). -/
theorem dense_init_wildcard_witness :
    ([3, -1] : Shape).getLast? = some (-1) ∧
      DenseInitS natSplit 20 0 [3, -1] = Except.error FrameworkError.shapeError :=
  ⟨by decide, dense_init_wildcard natSplit 20 0 [3, -1] (by decide)⟩

/-- C3: for the model Dense 20, Tanh, Dense 1, Logistic, composite init from
input shape (-1, 41) returns output shape (-1, 1) with one parameter blob
per layer, and composite apply of any resulting parameters on a 1000 by 41
real input table returns a 1000 by 1 array every entry of which lies
strictly between 0 and 1. -/
theorem model_end_to_end {S : Type} (split : S → S × S) (rng : S)
    (w1 : Fin 41 → Fin 20 → ℝ) (b1 : Fin 20 → ℝ)
    (w2 : Fin 20 → Fin 1 → ℝ) (b2 : Fin 1 → ℝ)
    (X : Fin 1000 → Fin 41 → ℝ) :
    serialInit split
        [DenseInitS split 20, ActivationInitS, DenseInitS split 1, ActivationInitS]
        rng [-1, 41]
      = Except.ok ([-1, 1], [[[41, 20], [20]], [], [[20, 1], [1]], []]) ∧
    ∀ (i : Fin 1000) (j : Fin 1),
      (Net.cons (LayerA.dense w1 b1) (Net.cons (LayerA.elementwise Real.tanh)
          (Net.cons (LayerA.dense w2 b2)
            (Net.cons (LayerA.elementwise (logistic Real.exp)) Net.nil)))).applyN
          X i j ∈ Set.Ioo (0 : ℝ) 1 := by
  refine ⟨serialShapeAux split rng (-1), fun i j => ?_⟩
  exact logistic_mem_Ioo _

/-- C4: serial init of Dense 20, activation, Dense 1, activation from input
shape (batch, 41) returns final shape (batch, 1) and the index-aligned
parameter sequence with one entry per layer: weight (41, 20) and bias (20,)
for the first dense layer, the empty blob for the first activation, weight
(20, 1) and bias (1,) for the second dense layer, the empty blob for the
second activation. -/
theorem serial_shape_propagation {S : Type} (split : S → S × S) (rng : S)
    (batch : Int) :
    serialInit split
        [DenseInitS split 20, ActivationInitS, DenseInitS split 1, ActivationInitS]
        rng [batch, 41]
      = Except.ok ([batch, 1], [[[41, 20], [20]], [], [[20, 1], [1]], []]) :=
  serialShapeAux split rng batch

/-- C5: Dense init on an input shape with concrete trailing dimension d
returns the input shape with its trailing dimension replaced by the requested
output width, a weight array of shape (d, outDim) drawn from the first child
seed of the single split of the given seed, and a bias array of shape
(outDim,) drawn from the second child seed; when the splitter never returns
equal components the two child seeds are distinct. -/
theorem dense_init_concrete {S : Type} (split : S → S × S) (outDim : Int)
    (rng : S) (sh : Shape) (d : Int) (hd : sh.getLast? = some d)
    (hdc : 0 ≤ d) (ho : 0 ≤ outDim)
    (hsplit : ∀ s : S, (split s).1 ≠ (split s).2) :
    DenseInit split outDim trackSample trackSample rng sh
        = Except.ok (sh.dropLast ++ [outDim],
            (((split rng).1, [d, outDim]), ((split rng).2, [outDim]))) ∧
      (split rng).1 ≠ (split rng).2 := by
  refine ⟨?_, hsplit rng⟩
  unfold DenseInit
  rw [hd]
  simp [trackSample, sampleArrayShape, hdc, ho]

/-- C5 witness: Dense(20) initialized at the concrete shape (-1, 41) with
seed 7 under the binary-tree splitter: weight shape (41, 20) from child seed
15, bias shape (20,) from child seed 16, output shape (-1, 20). -/
theorem dense_init_concrete_witness :
    DenseInit natSplit 20 trackSample trackSample 7 [-1, 41]
        = Except.ok ([-1, 20], ((15, [41, 20]), (16, [20]))) ∧
      (natSplit 7).1 ≠ (natSplit 7).2 :=
  dense_init_concrete natSplit 20 7 [-1, 41] 41 (by decide) (by decide)
    (by decide) (fun s => by simp only [natSplit]; omega)

/-- C6: Dense apply computes exactly the dot product of the inputs with W
plus b: entrywise it is the contraction of the trailing input axis against
the first axis of W plus the bias entry; on a rank-2 input it coincides with
the Mathlib matrix product; and each leading (batch) index is computed
independently of all the others, which is the broadcast of b and of the
contraction over all leading axes, for inputs of any rank at least 1. -/
theorem dense_apply_correct {A : Type} [CommRing A] {I : Type} {n m r : Nat}
    (w : Fin n → Fin m → A) (b : Fin m → A) (x : I → Fin n → A)
    (M : Fin r → Fin n → A) :
    (∀ i j, denseApply (w, b) x i j
        = Finset.sum Finset.univ (fun k => x i k * w k j) + b j) ∧
    (∀ (i : Fin r) (j : Fin m),
        denseApply (w, b) M i j = (Matrix.of M * Matrix.of w) i j + b j) ∧
    (∀ i, denseApply (w, b) x i = denseApply (w, b) (fun _ : Unit => x i) ()) := by
  refine ⟨fun i j => rfl, fun i j => ?_, fun i => rfl⟩
  simp [denseApply, npDot, Matrix.mul_apply]

/-- C7: composite init touches no process-wide state and is deterministic:
its state-passing embedding over the stax layers returns the ambient state
unchanged with the value of the pure function of the seed and input shape
alone, so two invocations with identical seed and input shape, under any two
ambient states, return identical parameters and output shape. -/
theorem serial_init_pure {G S P : Type} (split : S → S × S)
    (ls : List (S → Shape → Except FrameworkError (Shape × P)))
    (g g2 : G) (rng : S) (sh : Shape) :
    serialInitW split (ls.map liftInit) g rng sh
        = (g, serialInit split ls rng sh) ∧
      (serialInitW split (ls.map liftInit) g rng sh).2
        = (serialInitW split (ls.map liftInit) g2 rng sh).2 := by
  refine ⟨serialInitW_lift split ls g rng sh, ?_⟩
  simp [serialInitW_lift split ls]

/-- C8 counterexample: an injective deterministic splitter under which the
serial init loop hands the same child seed (11) to layers 0 and 2 of a
three-layer composite: injectivity of the splitter alone does not prevent
seed reuse across layers. -/
theorem serial_seed_reuse :
    Function.Injective exSplit ∧
      serialInit exSplit [probeInit, probeInit, probeInit] 1 []
        = Except.ok ([], [11, -5, 11]) := by
  constructor
  · intro a b hab
    have h2 : (exSplit a).2 = (exSplit b).2 := by rw [hab]
    simp only [exSplit] at h2
    omega
  · decide

/-- C8 (amended): the serial init loop splits the running seed exactly once
per layer, handing the second component to that layer init and carrying the
first component to the next iteration, so with n instrumented layers the
recorded seeds are exactly the child-seed chain; and if the child component
of the splitter is injective and the running-seed chain has no repetition
among the first n seeds, then no two of the n layers receive identical
seeds. (Injectivity of the splitter alone is not sufficient.) -/
theorem serial_seed_discipline {S : Type} (split : S → S × S) (rng : S)
    (sh : Shape) (n : Nat)
    (hchain : ∀ i, i < n → ∀ j, j < n → i ≠ j →
      contSeed split rng i ≠ contSeed split rng j)
    (hinj : ∀ a b : S, (split a).2 = (split b).2 → a = b) :
    serialInit split (List.replicate n probeInit) rng sh
        = Except.ok (sh, (List.range n).map (childSeed split rng)) ∧
      ∀ i, i < n → ∀ j, j < n → i ≠ j →
        childSeed split rng i ≠ childSeed split rng j := by
  refine ⟨serialInit_probe split n rng sh, ?_⟩
  intro i hi j hj hne heq
  exact hchain i hi j hj hne (hinj _ _ heq)

/-- C8 witness: four layers under the binary-tree splitter on natural-number
seeds from root seed 0: the child seeds 2, 4, 8, 16 are pairwise distinct. -/
theorem serial_seed_discipline_witness :
    serialInit natSplit (List.replicate 4 probeInit) 0 [-1, 41]
        = Except.ok ([-1, 41], (List.range 4).map (childSeed natSplit 0)) ∧
      ∀ i, i < 4 → ∀ j, j < 4 → i ≠ j →
        childSeed natSplit 0 i ≠ childSeed natSplit 0 j :=
  serial_seed_discipline natSplit 0 [-1, 41] 4 (by decide)
    (fun a b h => by simp only [natSplit] at h; omega)

/-- C9 counterexample: the serial combinator applied to the empty layer
sequence does not return an identity layer: it fails at construction, when
unpacking the zip of zero layer pairs raises a value error. -/
theorem serial_empty_fails :
    serial natSplit
        ([] : List ((Nat → Shape → Except FrameworkError (Shape × List Shape)) × Unit))
      = Except.error FrameworkError.valueError := rfl

/-- C9 (amended): serial of the empty layer sequence fails at construction
with a value error; the init loop itself, run over an empty initializer
list, returns the input shape unchanged with an empty parameter sequence,
and the apply loop over an empty chain returns its input unchanged. -/
theorem serial_empty_identity {S P A I : Type} [CommRing A]
    (split : S → S × S) (rng : S) (sh : Shape) (n : Nat) (x : I → Fin n → A) :
    serial split ([] : List ((S → Shape → Except FrameworkError (Shape × P)) × Unit))
        = Except.error FrameworkError.valueError ∧
      serialInit split ([] : List (S → Shape → Except FrameworkError (Shape × P)))
          rng sh
        = Except.ok (sh, []) ∧
      Net.applyN (Net.nil : Net A n n) x = x :=
  ⟨rfl, rfl, rfl⟩

/-- C10: the notebook nn_model written through the dense helper is
extensionally equal to the original inlined model: on any parameter
dictionary whose dense1 and dense2 entries hold w and b arrays of matching
shapes and any conforming input, it computes logistic of the product with w2
plus b2 of tanh of the product with w1 plus b1, with the same arrays. -/
theorem nn_model_refines {A : Type} [Field A] (tanh exp : A → A) {I : Type}
    {n m k : Nat} (w1 : Fin n → Fin m → A) (b1 : Fin m → A)
    (w2 : Fin m → Fin k → A) (b2 : Fin k → A) (x : I → Fin n → A) :
    nn_model tanh exp (DenseParams.mk w1 b1, DenseParams.mk w2 b2) x
      = nn_model_orig tanh exp w1 b1 w2 b2 x := rfl

end DLWorkshop
